import Mathlib

set_option maxRecDepth 8192

/-!
# Verification of the `cyber_shield_ai` question pipeline

Shallow embedding of `src/src/App.tsx`: the two-step
classify-then-answer pipeline `getGeminiResponse` (lines 19-41) and the
submission handler `handleSubmit` (lines 128-170).

The remote text-generation service is modelled as a function from a
prompt string to `Except Unit String`: `Except.ok resp` is a resolved
call returning response text `resp`, `Except.error ()` is a call that
threw (the source discards the error value, so the payload is `Unit`).
Each invocation of the pipeline also produces a trace of the remote
calls it issued, in order, so that claims about which calls happen can
be stated.
-/

/-- A remote call issued by the pipeline: the classification call of
line 25 or the generation call of line 34, each carrying the prompt
string sent to the service. -/
inductive RemoteCall where
  | classify (prompt : String)
  | generate (prompt : String)
deriving DecidableEq, Repr

/-- Is this trace entry a generation call? -/
def RemoteCall.isGenerate : RemoteCall → Bool
  | RemoteCall.classify _ => false
  | RemoteCall.generate _ => true

/-- The remote text-generation service: one opaque prompt in, either a
text response or a thrown error out. -/
def Service : Type := String → Except Unit String

/-- JavaScript `pat.isPrefixOf`-style check at the character-list level:
`startsWithL pat s` holds when `pat` is an initial segment of `s`. -/
def startsWithL : List Char → List Char → Bool
  | [], _ => true
  | _ :: _, [] => false
  | p :: ps, c :: cs => (p == c) && startsWithL ps cs

/-- JavaScript `String.prototype.includes` at the character-list level:
`containsSub s pat` holds when `pat` occurs contiguously in `s`. -/
def containsSub : List Char → List Char → Bool
  | [], pat => pat.isEmpty
  | c :: rest, pat => startsWithL pat (c :: rest) || containsSub rest pat

/-- Spec-side notion: `pat` occurs as a contiguous substring of `s`
(stated as an existential over a decomposition of the characters). -/
def HasSubstr (s pat : String) : Prop :=
  ∃ pre post : List Char, s.data = pre ++ pat.data ++ post

/-- JavaScript `toLowerCase`, modelled character-wise. -/
def lowerStr (s : String) : String := ⟨s.data.map Char.toLower⟩

/-- The classification prompt built at line 24 of `App.tsx`. -/
def categoryCheckPrompt (question : String) : String :=
  "Determine if this question is related to cybersecurity. Only respond with \"true\" if it\x27s cybersecurity-related, or \"false\" if it\x27s not: \"" ++ question ++ "\""

/-- The fixed text preceding the question in the generation prompt of
line 33 of `App.tsx`. -/
def mainPromptPre : String :=
  "You are a cybersecurity expert AI assistant. Please provide a detailed, professional response to this cybersecurity question: "

/-- The generation prompt built at line 33 of `App.tsx`: the fixed
instruction followed by the verbatim question. -/
def mainPrompt (question : String) : String :=
  mainPromptPre ++ question

/-- The fixed off-topic refusal string returned at line 29. -/
def offTopicRefusal : String :=
  "I apologize, but I can only assist with cybersecurity-related questions. Please feel free to ask any questions about cybersecurity, and I\x27ll be happy to help."

/-- The fixed technical-difficulty string returned by the catch at
line 39. -/
def technicalDifficulty : String :=
  "I apologize, but I\x27m currently experiencing technical difficulties. Please try again later."

/-- Line 26 of `App.tsx`: lowercase the classifier response and test
whether it includes the substring `"true"`. -/
def isCyberSecurityRelated (resp : String) : Bool :=
  containsSub (lowerStr resp).data "true".data

/-- The try-block of `getGeminiResponse` (lines 20-36): run the
classification call, branch on the substring check, possibly run the
generation call; a thrown service error propagates out (to the catch).
The second component is the trace of remote calls issued. -/
def getGeminiTry (svc : Service) (question : String) :
    Except Unit String × List RemoteCall :=
  match svc (categoryCheckPrompt question) with
  | Except.error e => (Except.error e, [RemoteCall.classify (categoryCheckPrompt question)])
  | Except.ok checkResp =>
    if !(isCyberSecurityRelated checkResp) then
      (Except.ok offTopicRefusal, [RemoteCall.classify (categoryCheckPrompt question)])
    else
      match svc (mainPrompt question) with
      | Except.error e =>
        (Except.error e,
          [RemoteCall.classify (categoryCheckPrompt question),
           RemoteCall.generate (mainPrompt question)])
      | Except.ok answer =>
        (Except.ok answer,
          [RemoteCall.classify (categoryCheckPrompt question),
           RemoteCall.generate (mainPrompt question)])

/-- `getGeminiResponse` (lines 19-41): the try-block wrapped in the
catch of lines 37-40, which converts any thrown error into the fixed
technical-difficulty string. The result type remains `Except` because
the returned promise could in principle reject; the catch is what rules
that out. -/
def getGeminiResponse (svc : Service) (question : String) :
    Except Unit String × List RemoteCall :=
  match getGeminiTry svc question with
  | (Except.error _, calls) => (Except.ok technicalDifficulty, calls)
  | other => other


-- ### The caller (`handleSubmit`, lines 128-170) and its state

/-- The fallback message appended by `handleSubmit`'s own catch branch
(line 162). -/
def handleSubmitErrorMsg : String :=
  "I apologize, but I encountered an error processing your request. Please try again."

/-- The bot-message content computed by `handleSubmit` (lines 151-166):
the resolved value of `getGeminiResponse`, or the caller's fallback
message if the awaited promise rejected. -/
def botContent (svc : Service) (question : String) : String :=
  match (getGeminiResponse svc question).1 with
  | Except.ok s => s
  | Except.error _ => handleSubmitErrorMsg

/-- Sender tag of a chat message (`type` field of `Message`). -/
inductive MsgSender where
  | user
  | bot
deriving DecidableEq, Repr

/-- Attachment kind (`'image' | 'file'`). -/
inductive AttachKind where
  | image
  | file
deriving DecidableEq, Repr

/-- An attachment as held in component state. -/
structure Attachment where
  kind : AttachKind
  name : String
  url : String
deriving DecidableEq, Repr

/-- A chat message (the `Message` interface, lines 5-14). -/
structure Message where
  sender : MsgSender
  content : String
  attachment : Option Attachment
  timestamp : Option Nat
deriving DecidableEq, Repr

/-- A search-history entry (`{ question, timestamp }`, line 50). -/
structure HistoryEntry where
  question : String
  timestamp : Nat
deriving DecidableEq, Repr

/-- The component state touched by `handleSubmit`: `input`, `messages`,
`isLoading`, `attachment`, `searchHistory`. -/
structure AppState where
  input : String
  messages : List Message
  isLoading : Bool
  attachment : Option Attachment
  searchHistory : List HistoryEntry
deriving DecidableEq, Repr

/-- JavaScript `String.prototype.trim`, modelled character-wise:
whitespace is dropped from both ends. -/
def trimL (s : String) : String :=
  ⟨((s.data.dropWhile Char.isWhitespace).reverse.dropWhile Char.isWhitespace).reverse⟩

/-- `handleSubmit` (lines 128-170), run to completion: the guard of
line 130 makes the submission a no-op; otherwise the user message is
appended (with the untrimmed input as content), the history entry is
prepended, input and attachment are cleared, and after the awaited
pipeline resolves the bot message is appended and loading ends.
`tsUser` and `tsBot` are the two `Date.now()` readings. -/
def handleSubmit (svc : Service) (tsUser tsBot : Nat) (s : AppState) : AppState :=
  if ((trimL s.input).data.isEmpty && s.attachment.isNone) || s.isLoading then s
  else
    { input := ""
      messages := s.messages
          ++ [⟨MsgSender.user, s.input, s.attachment, some tsUser⟩,
              ⟨MsgSender.bot, botContent svc s.input, none, some tsBot⟩]
      isLoading := false
      attachment := none
      searchHistory := ⟨s.input, tsUser⟩ :: s.searchHistory }

/-- Answers produced for a sequence of independently submitted
questions against the same service. -/
def runQuestions (svc : Service) (qs : List String) : List (Except Unit String) :=
  qs.map (fun q => (getGeminiResponse svc q).1)

-- ### Basic lemmas about the substring check

theorem startsWithL_iff (pat s : List Char) :
    startsWithL pat s = true ↔ ∃ t, s = pat ++ t := by
  induction pat generalizing s with
  | nil =>
    simp [startsWithL]
  | cons p ps ih =>
    cases s with
    | nil =>
      simp [startsWithL]
    | cons c cs =>
      simp only [startsWithL, Bool.and_eq_true, beq_iff_eq, ih]
      constructor
      · rintro ⟨rfl, t, rfl⟩
        exact ⟨t, rfl⟩
      · rintro ⟨t, ht⟩
        injection ht with h1 h2
        exact ⟨h1.symm, t, h2⟩

theorem containsSub_iff (s pat : List Char) :
    containsSub s pat = true ↔ ∃ pre post, s = pre ++ pat ++ post := by
  induction s with
  | nil =>
    simp only [containsSub, List.isEmpty_iff]
    constructor
    · rintro rfl
      exact ⟨[], [], rfl⟩
    · rintro ⟨pre, post, h⟩
      rcases List.append_eq_nil.mp h.symm with ⟨h1, h2⟩
      exact (List.append_eq_nil.mp h1).2
  | cons c cs ih =>
    simp only [containsSub, Bool.or_eq_true, startsWithL_iff, ih]
    constructor
    · rintro (⟨t, ht⟩ | ⟨pre, post, hp⟩)
      · exact ⟨[], t, by simpa using ht⟩
      · exact ⟨c :: pre, post, by simp [hp]⟩
    · rintro ⟨pre, post, hp⟩
      cases pre with
      | nil =>
        exact Or.inl ⟨post, by simpa using hp⟩
      | cons p ps =>
        injection hp with h1 h2
        exact Or.inr ⟨ps, post, h2⟩


theorem isCyberSecurityRelated_iff (resp : String) :
    isCyberSecurityRelated resp = true ↔ HasSubstr (lowerStr resp) "true" := by
  exact containsSub_iff (lowerStr resp).data "true".data

-- ### Branch lemmas for the pipeline

theorem getGeminiResponse_classifyError (svc : Service) (q : String)
    (h : svc (categoryCheckPrompt q) = Except.error ()) :
    getGeminiResponse svc q
      = (Except.ok technicalDifficulty, [RemoteCall.classify (categoryCheckPrompt q)]) := by
  simp [getGeminiResponse, getGeminiTry, h]

theorem getGeminiResponse_offTopic (svc : Service) (q resp : String)
    (h : svc (categoryCheckPrompt q) = Except.ok resp)
    (hb : isCyberSecurityRelated resp = false) :
    getGeminiResponse svc q
      = (Except.ok offTopicRefusal, [RemoteCall.classify (categoryCheckPrompt q)]) := by
  simp [getGeminiResponse, getGeminiTry, h, hb]

theorem getGeminiResponse_generateOk (svc : Service) (q resp ans : String)
    (h : svc (categoryCheckPrompt q) = Except.ok resp)
    (hb : isCyberSecurityRelated resp = true)
    (hg : svc (mainPrompt q) = Except.ok ans) :
    getGeminiResponse svc q
      = (Except.ok ans,
          [RemoteCall.classify (categoryCheckPrompt q),
           RemoteCall.generate (mainPrompt q)]) := by
  simp [getGeminiResponse, getGeminiTry, h, hb, hg]

theorem getGeminiResponse_generateError (svc : Service) (q resp : String)
    (h : svc (categoryCheckPrompt q) = Except.ok resp)
    (hb : isCyberSecurityRelated resp = true)
    (hg : svc (mainPrompt q) = Except.error ()) :
    getGeminiResponse svc q
      = (Except.ok technicalDifficulty,
          [RemoteCall.classify (categoryCheckPrompt q),
           RemoteCall.generate (mainPrompt q)]) := by
  simp [getGeminiResponse, getGeminiTry, h, hb, hg]

-- ### Claim theorems

/-- C1: the classification result is `true` exactly when the lowercased
raw classifier response contains the substring `"true"`; in particular
a response such as `"that's not true"` classifies as in-domain. -/
theorem claim1_classification_iff_substring :
    (∀ resp : String,
      isCyberSecurityRelated resp = true ↔ HasSubstr (lowerStr resp) "true")
    ∧ isCyberSecurityRelated "that\x27s not true" = true :=
  ⟨isCyberSecurityRelated_iff, by decide⟩

/-- C2: whenever the classifier response does not contain `"true"`
case-insensitively, the pipeline returns exactly the fixed off-topic
refusal string and the generation call is never issued (the trace holds
only the classification call). -/
theorem claim2_offTopic_refusal_no_generate (svc : Service) (q resp : String)
    (hok : svc (categoryCheckPrompt q) = Except.ok resp)
    (hfalse : ¬ HasSubstr (lowerStr resp) "true") :
    getGeminiResponse svc q
      = (Except.ok offTopicRefusal, [RemoteCall.classify (categoryCheckPrompt q)]) := by
  have hb : isCyberSecurityRelated resp = false := by
    cases h : isCyberSecurityRelated resp with
    | false => rfl
    | true => exact absurd ((isCyberSecurityRelated_iff resp).mp h) hfalse
  exact getGeminiResponse_offTopic svc q resp hok hb

/-- Witness for C2 at the spec's own example: classifier stub returns
`"false"` for an off-topic question. -/
theorem claim2_witness :
    getGeminiResponse (fun _ => Except.ok "false") "What is the best pizza topping?"
      = (Except.ok offTopicRefusal,
         [RemoteCall.classify (categoryCheckPrompt "What is the best pizza topping?")]) :=
  claim2_offTopic_refusal_no_generate _ _ "false" rfl
    (fun h => absurd ((isCyberSecurityRelated_iff "false").mpr h) (by decide))

/-- C3: whenever the classifier response contains `"true"`
case-insensitively, the generation call is issued exactly once, and its
prompt is the fixed instruction followed by the verbatim question. -/
theorem claim3_generate_once_verbatim (svc : Service) (q resp : String)
    (hok : svc (categoryCheckPrompt q) = Except.ok resp)
    (htrue : HasSubstr (lowerStr resp) "true") :
    (getGeminiResponse svc q).2
        = [RemoteCall.classify (categoryCheckPrompt q),
           RemoteCall.generate (mainPrompt q)]
    ∧ (getGeminiResponse svc q).2.countP (fun c => c.isGenerate) = 1
    ∧ mainPrompt q = mainPromptPre ++ q := by
  have hb : isCyberSecurityRelated resp = true :=
    (isCyberSecurityRelated_iff resp).mpr htrue
  have htr : (getGeminiResponse svc q).2
      = [RemoteCall.classify (categoryCheckPrompt q),
         RemoteCall.generate (mainPrompt q)] := by
    cases hg : svc (mainPrompt q) with
    | ok ans => rw [getGeminiResponse_generateOk svc q resp ans hok hb hg]
    | error e =>
      cases e
      rw [getGeminiResponse_generateError svc q resp hok hb hg]
  refine ⟨htr, ?_, rfl⟩
  rw [htr]
  simp [List.countP_cons, RemoteCall.isGenerate]

/-- Witness for C3 at the spec's firewall example with classifier stub
response `"True."`. -/
theorem claim3_witness :
    (getGeminiResponse (fun _ => Except.ok "True.")
        "How do I set up a firewall rule to block inbound SSH?").2
        = [RemoteCall.classify
             (categoryCheckPrompt "How do I set up a firewall rule to block inbound SSH?"),
           RemoteCall.generate
             (mainPrompt "How do I set up a firewall rule to block inbound SSH?")]
    ∧ (getGeminiResponse (fun _ => Except.ok "True.")
        "How do I set up a firewall rule to block inbound SSH?").2.countP
          (fun c => c.isGenerate) = 1
    ∧ mainPrompt "How do I set up a firewall rule to block inbound SSH?"
        = mainPromptPre ++ "How do I set up a firewall rule to block inbound SSH?" :=
  claim3_generate_once_verbatim _ _ "True." rfl
    ((isCyberSecurityRelated_iff "True.").mp (by decide))

/-- C4: a service error during either the classification call or the
generation call yields exactly the fixed technical-difficulty string,
and the pipeline never surfaces an error value to its caller. -/
theorem claim4_error_to_technical_difficulty (svc : Service) (q : String) :
    (svc (categoryCheckPrompt q) = Except.error () →
      (getGeminiResponse svc q).1 = Except.ok technicalDifficulty)
    ∧ (∀ resp, svc (categoryCheckPrompt q) = Except.ok resp →
        isCyberSecurityRelated resp = true →
        svc (mainPrompt q) = Except.error () →
        (getGeminiResponse svc q).1 = Except.ok technicalDifficulty)
    ∧ (∀ e : Unit, (getGeminiResponse svc q).1 ≠ Except.error e) := by
  refine ⟨fun h => by rw [getGeminiResponse_classifyError svc q h],
    fun resp h hb hg => by rw [getGeminiResponse_generateError svc q resp h hb hg],
    fun e => ?_⟩
  cases hc : svc (categoryCheckPrompt q) with
  | error e0 =>
    cases e0
    rw [getGeminiResponse_classifyError svc q hc]
    simp
  | ok resp =>
    cases hb : isCyberSecurityRelated resp with
    | false =>
      rw [getGeminiResponse_offTopic svc q resp hc hb]
      simp
    | true =>
      cases hg : svc (mainPrompt q) with
      | error e1 =>
        cases e1
        rw [getGeminiResponse_generateError svc q resp hc hb hg]
        simp
      | ok ans =>
        rw [getGeminiResponse_generateOk svc q resp ans hc hb hg]
        simp

/-- Witness for C4: a service failing at classification, and a service
answering the classifier but failing at generation, both yield the
technical-difficulty string. -/
theorem claim4_witness :
    (getGeminiResponse (fun _ => Except.error ()) "x").1
        = Except.ok technicalDifficulty
    ∧ (getGeminiResponse
        (fun p => if startsWithL "You".data p.data then Except.error ()
                  else Except.ok "true") "x").1
        = Except.ok technicalDifficulty :=
  ⟨(claim4_error_to_technical_difficulty (fun _ => Except.error ()) "x").1 rfl,
   (claim4_error_to_technical_difficulty
      (fun p => if startsWithL "You".data p.data then Except.error ()
                else Except.ok "true") "x").2.1
     "true" rfl (by decide) rfl⟩

/-- C5: for an in-domain question whose generation call succeeds, the
returned answer is character-for-character the generator's raw
response. -/
theorem claim5_answer_verbatim (svc : Service) (q resp ans : String)
    (h1 : svc (categoryCheckPrompt q) = Except.ok resp)
    (h2 : HasSubstr (lowerStr resp) "true")
    (h3 : svc (mainPrompt q) = Except.ok ans) :
    (getGeminiResponse svc q).1 = Except.ok ans := by
  rw [getGeminiResponse_generateOk svc q resp ans h1
    ((isCyberSecurityRelated_iff resp).mpr h2) h3]

/-- Witness for C5: classifier stub answers `"True."`, generator stub
answers `"Step 1: enable the firewall."`; the pipeline returns the
generator's text unchanged. -/
theorem claim5_witness :
    (getGeminiResponse
        (fun p => if startsWithL "You".data p.data
                  then Except.ok "Step 1: enable the firewall."
                  else Except.ok "True.") "How do I block inbound SSH?").1
      = Except.ok "Step 1: enable the firewall." :=
  claim5_answer_verbatim _ _ "True." "Step 1: enable the firewall."
    rfl ((isCyberSecurityRelated_iff "True.").mp (by decide)) rfl

/-- C6: the pipeline is deterministic in the service and the question:
two invocations with the same question against the same (deterministic)
service produce identical answers and identical call traces. -/
theorem claim6_idempotent (svc : Service) (q : String) :
    getGeminiResponse svc q = getGeminiResponse svc q ∧
    (getGeminiResponse svc q).1 = (getGeminiResponse svc q).1 :=
  ⟨rfl, rfl⟩

/-- C7: at most two remote calls are issued, strictly in sequence: the
trace is either the classification call alone, or the classification
call followed by the generation call, the latter only when the
classification call resolved with a response whose substring check
succeeded. -/
theorem claim7_at_most_two_sequential_calls (svc : Service) (q : String) :
    (getGeminiResponse svc q).2.length ≤ 2
    ∧ ((getGeminiResponse svc q).2 = [RemoteCall.classify (categoryCheckPrompt q)]
      ∨ ∃ resp, svc (categoryCheckPrompt q) = Except.ok resp
          ∧ isCyberSecurityRelated resp = true
          ∧ (getGeminiResponse svc q).2
              = [RemoteCall.classify (categoryCheckPrompt q),
                 RemoteCall.generate (mainPrompt q)]) := by
  cases hc : svc (categoryCheckPrompt q) with
  | error e0 =>
    cases e0
    rw [getGeminiResponse_classifyError svc q hc]
    exact ⟨by simp, Or.inl rfl⟩
  | ok resp =>
    cases hb : isCyberSecurityRelated resp with
    | false =>
      rw [getGeminiResponse_offTopic svc q resp hc hb]
      exact ⟨by simp, Or.inl rfl⟩
    | true =>
      cases hg : svc (mainPrompt q) with
      | error e1 =>
        cases e1
        rw [getGeminiResponse_generateError svc q resp hc hb hg]
        exact ⟨by simp, Or.inr ⟨resp, rfl, hb, rfl⟩⟩
      | ok ans =>
        rw [getGeminiResponse_generateOk svc q resp ans hc hb hg]
        exact ⟨by simp, Or.inr ⟨resp, rfl, hb, rfl⟩⟩

/-- C8: each invocation is stateless: the result depends only on the
question and on the service's responses to the two prompts built from
it (two services agreeing there are indistinguishable), and the answer
to a question in a multi-question run is independent of whatever
questions preceded it. -/
theorem claim8_stateless (svc1 svc2 : Service) (q : String)
    (h1 : svc1 (categoryCheckPrompt q) = svc2 (categoryCheckPrompt q))
    (h2 : svc1 (mainPrompt q) = svc2 (mainPrompt q)) :
    getGeminiResponse svc1 q = getGeminiResponse svc2 q
    ∧ ∀ pre : List String,
        runQuestions svc1 (pre ++ [q])
          = runQuestions svc1 pre ++ [(getGeminiResponse svc1 q).1] := by
  constructor
  · simp only [getGeminiResponse, getGeminiTry, h1, h2]
  · intro pre
    simp [runQuestions]

/-- Witness for C8: two services that differ on prompts the pipeline
never sends but agree on the two prompts built from `"hi"` produce the
same result, and the answer to `"hi"` is unaffected by a preceding
question. -/
theorem claim8_witness :
    getGeminiResponse (fun _ => Except.ok "true") "hi"
        = getGeminiResponse
            (fun p => if p.data.isEmpty then Except.error () else Except.ok "true") "hi"
    ∧ runQuestions (fun _ => Except.ok "true") (["other question"] ++ ["hi"])
        = runQuestions (fun _ => Except.ok "true") ["other question"]
          ++ [(getGeminiResponse (fun _ => Except.ok "true") "hi").1] :=
  ⟨(claim8_stateless (fun _ => Except.ok "true")
      (fun p => if p.data.isEmpty then Except.error () else Except.ok "true")
      "hi" rfl rfl).1,
   (claim8_stateless (fun _ => Except.ok "true")
      (fun p => if p.data.isEmpty then Except.error () else Except.ok "true")
      "hi" rfl rfl).2 ["other question"]⟩

/-- C9: the pipeline is total as seen by its caller: for every service
behaviour it resolves with some string (never an error value), and the
bot message appended by `handleSubmit` is exactly that string, so the
caller's own error branch is unreachable for remote-call failures. -/
theorem claim9_total_never_rejects (svc : Service) (q : String) :
    ∃ s, (getGeminiResponse svc q).1 = Except.ok s ∧ botContent svc q = s := by
  cases hc : svc (categoryCheckPrompt q) with
  | error e0 =>
    cases e0
    have h := getGeminiResponse_classifyError svc q hc
    exact ⟨technicalDifficulty, by rw [h], by simp [botContent, h]⟩
  | ok resp =>
    cases hb : isCyberSecurityRelated resp with
    | false =>
      have h := getGeminiResponse_offTopic svc q resp hc hb
      exact ⟨offTopicRefusal, by rw [h], by simp [botContent, h]⟩
    | true =>
      cases hg : svc (mainPrompt q) with
      | error e1 =>
        cases e1
        have h := getGeminiResponse_generateError svc q resp hc hb hg
        exact ⟨technicalDifficulty, by rw [h], by simp [botContent, h]⟩
      | ok ans =>
        have h := getGeminiResponse_generateOk svc q resp ans hc hb hg
        exact ⟨ans, by rw [h], by simp [botContent, h]⟩

/-- C10: a submission is a complete no-op (all five state fields
unchanged) when the trimmed input is empty and there is no attachment,
or when a request is in flight; a whitespace-only input with an
attachment is still submitted, with the whitespace-only string itself
as the Question. -/
theorem claim10_submit_noop_guard (svc : Service) (tsUser tsBot : Nat) (s : AppState) :
    ((((trimL s.input).data.isEmpty && s.attachment.isNone) || s.isLoading) = true →
      handleSubmit svc tsUser tsBot s = s)
    ∧ (∀ a : Attachment, (trimL s.input).data.isEmpty = true → s.attachment = some a →
        s.isLoading = false →
        (handleSubmit svc tsUser tsBot s).messages
          = s.messages
            ++ [⟨MsgSender.user, s.input, some a, some tsUser⟩,
                ⟨MsgSender.bot, botContent svc s.input, none, some tsBot⟩]) := by
  constructor
  · intro h
    simp [handleSubmit, h]
  · intro a h1 h2 h3
    simp [handleSubmit, h1, h2, h3]

/-- Witness for C10: the guard makes an empty, attachment-free, idle
submission a no-op, while a whitespace-only input with an attachment is
submitted with `" "` as the Question. -/
theorem claim10_witness :
    handleSubmit (fun _ => Except.ok "false") 1 2 ⟨"", [], false, none, []⟩
        = ⟨"", [], false, none, []⟩
    ∧ (handleSubmit (fun _ => Except.ok "false") 1 2
          ⟨" ", [], false, some ⟨AttachKind.file, "notes.txt", "blob:1"⟩, []⟩).messages
        = ([] : List Message)
          ++ [⟨MsgSender.user, " ", some ⟨AttachKind.file, "notes.txt", "blob:1"⟩, some 1⟩,
              ⟨MsgSender.bot, botContent (fun _ => Except.ok "false") " ", none, some 2⟩] :=
  ⟨(claim10_submit_noop_guard (fun _ => Except.ok "false") 1 2
      ⟨"", [], false, none, []⟩).1 (by decide),
   (claim10_submit_noop_guard (fun _ => Except.ok "false") 1 2
      ⟨" ", [], false, some ⟨AttachKind.file, "notes.txt", "blob:1"⟩, []⟩).2
     ⟨AttachKind.file, "notes.txt", "blob:1"⟩ (by decide) rfl rfl⟩
